import Mathlib

/-!
Shallow embedding of the DDKCORE core: transaction service (validate,
checkBalance, verifyUnconfirmed, getBytes, sign/verify stubs, sender-conflict
resolution), the slot clock, and the block-process module (fork-1 / fork-5
resolution, newGenerateBlock).  Definitions are translated from the TypeScript
and JavaScript sources; helpers the sources only import (byte-length constants,
the numeric transaction-type enum, the per-type asset services) are modelled
from the specification and documented as such at their definition.
-/

set_option autoImplicit false

namespace DDK

/-- A verification result: `ResponseEntity` from `shared/model/response`
(not in the sources).  Modelled from the spec: "All verification returns a
structured failure value carrying a list of messages"; it succeeds exactly
when the error list is empty. -/
structure Response where
  errors : List String
deriving Repr, DecidableEq

/-- `response.success`: true iff no errors were collected. -/
def Response.success (r : Response) : Bool :=
  r.errors.isEmpty

/-- The successful response `new ResponseEntity()`. -/
def Response.ok : Response := ⟨[]⟩

/-! ## Slot clock (`SlotService`, src/unnamed/part_000) -/

/-- `SlotService.interval`: slot time interval in seconds. -/
def slotInterval : Int := 10

/-- `SlotService.getSlotNumber(epochTime) = Math.floor(epochTime / interval)`.
`Int.fdiv` is floor division, matching `Math.floor` on a real quotient. -/
def getSlotNumber (epochTime : Int) : Int :=
  Int.fdiv epochTime slotInterval

/-- `SlotService.getSlotTime(slot) = slot * interval`. -/
def getSlotTime (slot : Int) : Int :=
  slot * slotInterval

/-! ## Transaction model

`TransactionModel` / `Transaction` live in `shared/model/transaction`, which is
not among the sources; the fields below are the ones `TransactionService`
(src/core/service/transaction.ts) reads.  JavaScript truthiness is modelled
per type: a missing/empty string is `""`, a falsy number is `0`. -/

/-- Modelled from the spec: the numeric enum value of `TransactionType.SEND`
(`shared/model/transaction` is not in the sources).  Only its truthiness
(non-zero) and equality tests are ever used, so the exact value is immaterial. -/
def sendTypeCode : Nat := 10

/-- The transaction fields read by `TransactionService.validate`,
`checkBalance` and `verifyUnconfirmed`.  The SEND asset
(`IAssetTransfer`) is inlined as `amount`/`recipientAddress`. -/
structure Trs where
  id : String
  typeCode : Nat
  senderAddress : Nat
  senderPublicKey : String
  signature : String
  fee : Int
  salt : String
  createdAt : Int
  blockId : Option String
  amount : Int
  recipientAddress : Nat
deriving Repr, DecidableEq

/-- `String(n).indexOf('.') >= 0` for a JavaScript number holding the integer
`n`: integers never render with a decimal point. -/
def jsNumberHasDot (_ : Int) : Bool := false

/-- `String(n).indexOf('e') >= 0` for a JavaScript number holding the integer
`n`: exponent notation appears from absolute value `10^21` on. -/
def jsNumberHasE (n : Int) : Bool :=
  decide (10 ^ 21 ≤ n) || decide (n ≤ -(10 ^ 21))

/-- `TransactionService.validate` (src/core/service/transaction.ts, lines
283-343).  The dispatched per-type `service.validate` is not in the sources
and is passed in as `serviceValidate`; a `none` transaction models the falsy
`!trs` check.  Errors are accumulated in source order. -/
def validate (serviceValidate : Trs → Response) (trs : Option Trs) : Response :=
  match trs with
  | none => ⟨["Missing transaction"]⟩
  | some t =>
    let errors :=
      (if t.id = "" then ["Missing id"] else [])
      ++ (if t.typeCode = 0 then ["Missing type"] else [])
      ++ (if t.senderAddress = 0 then ["Missing sender address"] else [])
      ++ (if t.senderPublicKey = "" then ["Missing sender public key"] else [])
      ++ (if t.signature = "" then ["Missing signature"] else [])
      ++ (if t.fee = 0 then ["Missing fee"] else [])
      ++ (if t.salt = "" then ["Missing salt"] else [])
      ++ (if t.createdAt = 0 then ["Missing creation time"] else [])
      ++ (if t.typeCode = sendTypeCode then
            (if t.amount = 0 then ["Missing amount"] else [])
            ++ (if t.amount < 0 || jsNumberHasDot t.amount || jsNumberHasE t.amount then
                  ["Invalid amount"] else [])
          else [])
      ++ (serviceValidate t).errors
    ⟨errors⟩

/-! ## Balance check and unconfirmed verification
(`TransactionService.checkBalance` / `verifyUnconfirmed`,
src/core/service/transaction.ts) -/

/-- The sender account fields read by the service (`shared/model/account` is
not in the sources; fields per spec §3). -/
structure Account where
  address : Nat
  actualBalance : Int
  totalStakedAmount : Int
deriving Repr, DecidableEq

/-- `TransactionService.checkBalance` (lines 105-121): genesis-block
transactions pass unconditionally; otherwise the check is
`sender.actualBalance >= amount` — the two `TODO` comments in the source note
that `sender.totalStakedAmount` is *not* subtracted yet. -/
def checkBalance (genesisBlockId : String) (amount : Int) (trs : Trs)
    (sender : Account) : Response :=
  if trs.blockId = some genesisBlockId then Response.ok
  else if amount ≤ sender.actualBalance then Response.ok
  else ⟨["Not enough money on account"]⟩

/-- The collaborators `verifyUnconfirmed` dispatches to; none of them is in
the sources (`core/util/transaction`, `core/repository/transaction`, the
per-type asset services), so they are parameters of the embedding. -/
structure VerifyCtx where
  genesisBlockId : String
  calculateFee : Trs → Account → Int
  recomputeId : Trs → String
  isConfirmed : String → Bool
  serviceVerifyUnconfirmed : Trs → Account → Response

/-- `TransactionService.verifyUnconfirmed` (lines 361-389): recompute the fee
(and the id when the fee changed), optionally reject already-confirmed
transactions, for SEND check `asset.amount + trs.fee` against the balance,
then dispatch to the per-type service. -/
def verifyUnconfirmed (ctx : VerifyCtx) (trs : Trs) (sender : Account)
    (checkExists : Bool) : Response :=
  let fee := ctx.calculateFee trs sender
  let trs :=
    if fee ≠ trs.fee then
      let t := { trs with fee := fee }
      { t with id := ctx.recomputeId t }
    else trs
  if checkExists && ctx.isConfirmed trs.id then
    ⟨["Transaction is already confirmed"]⟩
  else if trs.typeCode = sendTypeCode then
    let amount := trs.amount + trs.fee
    let senderBalanceResponse := checkBalance ctx.genesisBlockId amount trs sender
    if !senderBalanceResponse.success then senderBalanceResponse
    else ctx.serviceVerifyUnconfirmed trs sender
  else ctx.serviceVerifyUnconfirmed trs sender

/-! ## Canonical transaction bytes (`TransactionService.getBytes`,
src/core/service/transaction.ts, lines 221-253)

The buffer helpers (`core/util/buffer`, `TRANSACTION_BUFFER_SIZE`) are not in
the sources.  Field widths are modelled from the spec §4.1 layout table:
salt 16, type 1, createdAt 4 (u32 LE), senderPublicKey 32,
recipientAddress 8 (u64 LE), amount 8 (u64 LE), signature 64,
secondSignature 64.  A byte is a `Nat` reduced `% 256`. -/

/-- Little-endian bytes of `n`, `width` bytes wide (modular in `n`). -/
def leBytes (width n : Nat) : List Nat :=
  match width with
  | 0 => []
  | w + 1 => n % 256 :: leBytes w (n / 256)

/-- `Buffer.write` into a zero-initialised region of length `len`: the first
`len` bytes of `bs`, zero-padded at the tail when `bs` is shorter. -/
def writeField (len : Nat) (bs : List Nat) : List Nat :=
  bs.take len ++ List.replicate (len - bs.length) 0

/-- The transaction fields `getBytes` serialises.  `salt` and
`senderPublicKey` are byte lists (hex-decoded in the source), the two
signatures are `none` when unsigned/absent, and the SEND asset is inlined. -/
structure BTrs where
  salt : List Nat
  typeCode : Nat
  createdAt : Nat
  senderPublicKey : List Nat
  recipientAddress : Nat
  amount : Nat
  signature : Option (List Nat)
  secondSignature : Option (List Nat)
deriving Repr, DecidableEq

/-- `TransactionService.getBytes`: the fixed header — salt, type, createdAt,
senderPublicKey, then either `recipientAddress ++ amount` (SEND) or 16 zero
bytes (the source only advances the offset over the zeroed buffer), then the
two signature slots (zeroes when absent) — concatenated with the asset tail.
The asset tail comes from the dispatched per-type service (not in the
sources) and is a parameter. -/
def getBytes (assetBytes : List Nat) (t : BTrs) : List Nat :=
  writeField 16 t.salt
  ++ [t.typeCode % 256]
  ++ leBytes 4 t.createdAt
  ++ writeField 32 t.senderPublicKey
  ++ (if t.typeCode = sendTypeCode then
        leBytes 8 t.recipientAddress ++ leBytes 8 t.amount
      else List.replicate 16 0)
  ++ (match t.signature with
      | some s => writeField 64 s
      | none => List.replicate 64 0)
  ++ (match t.secondSignature with
      | some s => writeField 64 s
      | none => List.replicate 64 0)
  ++ assetBytes

/-! ## Signature verification stubs
(`TransactionService.verifySignature` / `verifyBytes`,
src/core/service/transaction.ts, lines 346-359): both bodies are
`return undefined`, modelled as `none`. -/

/-- `IFunctionResponse` from `core/util/common` (not in the sources): a bare
success flag, per its use `isConfirmed.success` in the service. -/
structure FunctionResponse where
  success : Bool
deriving Repr, DecidableEq

/-- `TransactionService.verifySignature(trs, publicKey, signature)`:
the source body is exactly `return undefined`. -/
def verifySignature (trs : Trs) (publicKey signature : String) :
    Option FunctionResponse :=
  none

/-- `TransactionService.verifyBytes(bytes, publicKey, signature)`:
the source body is exactly `return undefined`. -/
def verifyBytes (bytes : List Nat) (publicKey signature : String) :
    Option FunctionResponse :=
  none

/-! ## Sender-conflict resolution
(`TransactionService.checkSenderTransactions`,
src/core/service/transaction.ts, lines 127-184)

The embedding records the pool/queue side effects of one call as an event
trace.  The loop walks `senderTransactions` (the pool entries of the sender,
fetched once); at index `i` for an unverified `senderTrs` it executes
`senderTransactions.slice(i, length).forEach(() =>
calculateUndoUnconfirmed(senderTrs, sender))` — note the callback ignores its
argument — then verifies, and on failure removes `senderTrs` from the pool,
pushes it to the queue and, for SEND, recurses on the recipient address
(recorded as a `recurseOn` event).  The balance bookkeeping on the local
`sender` copy does not touch the pool or queue and is not part of the trace. -/

/-- The pool entry fields the conflict-resolution loop reads. -/
structure PoolTrs where
  id : String
  typeCode : Nat
  amount : Int
  recipientAddress : Nat
deriving Repr, DecidableEq

/-- One observable pool/queue effect of `checkSenderTransactions`. -/
inductive PoolEvent where
  | undo (id : String)
  | removeFromPool (id : String)
  | pushToQueue (id : String)
  | recurseOn (addr : Nat)
deriving Repr, DecidableEq, BEq

/-- The event trace of the `for (const senderTrs of senderTransactions)` loop,
recursing on the suffix (which is exactly
`senderTransactions.slice(i, length)` at index `i`).  `verifyOk` stands for
`TransactionQueue.verify` (not in the sources); `verified` is the
`verifiedTransactions` set. -/
def checkSenderTransactions (verifyOk : PoolTrs → Bool) (verified : List String) :
    List PoolTrs → List PoolEvent
  | [] => []
  | senderTrs :: rest =>
    if senderTrs.id ∈ verified then
      checkSenderTransactions verifyOk verified rest
    else
      let undos := (senderTrs :: rest).map (fun _ => PoolEvent.undo senderTrs.id)
      if verifyOk senderTrs then
        undos ++ checkSenderTransactions verifyOk (senderTrs.id :: verified) rest
      else
        undos
        ++ [PoolEvent.removeFromPool senderTrs.id, PoolEvent.pushToQueue senderTrs.id]
        ++ (if senderTrs.typeCode = sendTypeCode then
              [PoolEvent.recurseOn senderTrs.recipientAddress]
            else [])
        ++ checkSenderTransactions verifyOk verified rest

/-! ## Block process module (src/unnamed/part_003)

Fork resolution (`__private.receiveForkOne` / `receiveForkFive`) and block
generation (`Process.prototype.newGenerateBlock`).  The chain is a list with
the head block first, so `deleteLastBlock` is `List.drop 1`.  The
collaborators (`objectNormalize`, `validateBlockSlot`, `verifyReceipt`,
`newProcessBlock`) live outside the sources and are boolean oracles. -/

/-- The block fields the fork resolver reads.  `id` is numeric so the
source's `block.id > lastBlock.id` comparison is the claim's "numerically
smaller id" order; `timestamp` is the block's `createdAt`. -/
structure RBlock where
  id : Nat
  timestamp : Nat
  previousBlock : Nat
  height : Nat
  generatorPublicKey : Nat
deriving Repr, DecidableEq

/-- The discard test shared by both fork handlers (lines 599 and 659):
`block.timestamp > lastBlock.timestamp || (block.timestamp ===
lastBlock.timestamp && block.id > lastBlock.id)` — "Last block stands". -/
def lastBlockStands (block lastBlock : RBlock) : Bool :=
  decide (lastBlock.timestamp < block.timestamp)
  || (decide (block.timestamp = lastBlock.timestamp) && decide (lastBlock.id < block.id))

/-- The fork handlers' collaborators, none of which is in the sources. -/
structure ForkEnv where
  normalizeOk : RBlock → Bool
  validateSlotOk : RBlock → Bool
  verifyReceiptOk : RBlock → Bool
  processOk : RBlock → Bool

/-- One observable chain-level step of a fork handler. -/
inductive ChainAction where
  | normalizeBlock
  | validateSlot
  | verifyReceipt
  | deleteLastBlock
  | processBlock (id : Nat)
deriving Repr, DecidableEq, BEq

/-- `__private.receiveForkOne` (lines 592-636): if the last block stands the
received block is discarded; otherwise `async.series` runs normalize,
`validateBlockSlot`, `verifyReceipt` (aborting at the first failure, chain
untouched) and then `deleteLastBlock` twice.  The incoming block is never
processed here.  Returns the action trace and the resulting chain. -/
def receiveForkOne (env : ForkEnv) (chain : List RBlock) (block lastBlock : RBlock) :
    List ChainAction × List RBlock :=
  if lastBlockStands block lastBlock then ([], chain)
  else if env.normalizeOk block = false then ([ChainAction.normalizeBlock], chain)
  else if env.validateSlotOk block = false then
    ([ChainAction.normalizeBlock, ChainAction.validateSlot], chain)
  else if env.verifyReceiptOk block = false then
    ([ChainAction.normalizeBlock, ChainAction.validateSlot, ChainAction.verifyReceipt], chain)
  else
    ([ChainAction.normalizeBlock, ChainAction.validateSlot, ChainAction.verifyReceipt,
      ChainAction.deleteLastBlock, ChainAction.deleteLastBlock],
     chain.drop 2)

/-- `__private.receiveForkFive` (lines 647-701): same discard test and same
three checks, then `deleteLastBlock` once and `__private.newReceiveBlock` on
the received block (which catches its own processing errors, so on a
processing failure the deleted head is not restored). -/
def receiveForkFive (env : ForkEnv) (chain : List RBlock) (block lastBlock : RBlock) :
    List ChainAction × List RBlock :=
  if lastBlockStands block lastBlock then ([], chain)
  else if env.normalizeOk block = false then ([ChainAction.normalizeBlock], chain)
  else if env.validateSlotOk block = false then
    ([ChainAction.normalizeBlock, ChainAction.validateSlot], chain)
  else if env.verifyReceiptOk block = false then
    ([ChainAction.normalizeBlock, ChainAction.validateSlot, ChainAction.verifyReceipt], chain)
  else
    let trace := [ChainAction.normalizeBlock, ChainAction.validateSlot,
      ChainAction.verifyReceipt, ChainAction.deleteLastBlock,
      ChainAction.processBlock block.id]
    if env.processOk block then (trace, block :: chain.drop 1)
    else (trace, chain.drop 1)

/-- Pool-and-lock state around `newGenerateBlock`.  The pool holds
transaction ids; `locked` is the pool+queue lock. -/
structure GenState where
  pool : List String
  locked : Bool
deriving Repr, DecidableEq

/-- `Process.prototype.newGenerateBlock` (lines 406-435), entered after
`getUnconfirmedTransactionsForBlockGeneration` drained the pool: `drained`
are the popped transactions, `remainingPool` the pool content after the
drain.  The lock is taken, then `block.create` is tried: on failure the
exception is re-thrown — no `pushInPool`, no unlock.  Then `newProcessBlock`
is tried: on failure the drained transactions are pushed back and the lock
released (the error is only logged).  Returns the final state and whether an
exception escaped. -/
def newGenerateBlock (createOk processOk : Bool) (drained remainingPool : List String) :
    GenState × Bool :=
  if createOk = false then ({ pool := remainingPool, locked := true }, true)
  else if processOk then ({ pool := remainingPool, locked := false }, false)
  else ({ pool := remainingPool ++ drained, locked := false }, false)

/-! ## Concrete inputs used by counterexamples and witnesses -/

/-- A fully populated SEND transaction whose asset amount is zero. -/
def sendZeroAmount : Trs :=
  { id := "aa01", typeCode := sendTypeCode, senderAddress := 1,
    senderPublicKey := "pk", signature := "sig", fee := 1, salt := "abcd",
    createdAt := 100, blockId := none, amount := 0, recipientAddress := 2 }

/-- A per-type service validator that reports no errors. -/
def serviceValidateOk : Trs → Response := fun _ => Response.ok

/-- A sender with balance 100 of which 50 is staked: spendable balance 50. -/
def stakedSender : Account :=
  { address := 5, actualBalance := 100, totalStakedAmount := 50 }

/-- A SEND whose amount + fee (80) exceeds the spendable balance (50) but not
the raw `actualBalance` (100) of `stakedSender`. -/
def sendOverSpendable : Trs :=
  { id := "bb02", typeCode := sendTypeCode, senderAddress := 5,
    senderPublicKey := "pk", signature := "sig", fee := 10, salt := "abcd",
    createdAt := 100, blockId := none, amount := 70, recipientAddress := 2 }

/-- A `VerifyCtx` whose collaborators are neutral: the fee oracle returns the
transaction's own fee, nothing is already confirmed, and the per-type
verification succeeds. -/
def plainVerifyCtx : VerifyCtx :=
  { genesisBlockId := "genesis",
    calculateFee := fun t _ => t.fee,
    recomputeId := fun t => t.id,
    isConfirmed := fun _ => false,
    serviceVerifyUnconfirmed := fun _ _ => Response.ok }

/-- A concrete SEND transaction for the byte-layout statements. -/
def bTrs0 : BTrs :=
  { salt := List.replicate 16 1, typeCode := sendTypeCode, createdAt := 5,
    senderPublicKey := List.replicate 32 2, recipientAddress := 3, amount := 4,
    signature := some (List.replicate 64 7),
    secondSignature := some (List.replicate 64 8) }

/-- Two pool transactions of one sender. -/
def poolTrs1 : PoolTrs :=
  { id := "a1", typeCode := sendTypeCode, amount := 30, recipientAddress := 7 }

/-- See `poolTrs1`. -/
def poolTrs2 : PoolTrs :=
  { id := "b2", typeCode := sendTypeCode, amount := 20, recipientAddress := 8 }

/-- A verification oracle that fails exactly the transaction `"a1"`. -/
def rejectA1 : PoolTrs → Bool := fun t => !(t.id == "a1")

/-- A fork environment in which every check passes. -/
def allOkForkEnv : ForkEnv :=
  { normalizeOk := fun _ => true, validateSlotOk := fun _ => true,
    verifyReceiptOk := fun _ => true, processOk := fun _ => true }

/-- An incoming fork block that is older than `headBlock0`. -/
def forkBlock0 : RBlock :=
  { id := 2, timestamp := 90, previousBlock := 11, height := 4,
    generatorPublicKey := 21 }

/-- The chain head competing with `forkBlock0`. -/
def headBlock0 : RBlock :=
  { id := 9, timestamp := 100, previousBlock := 12, height := 4,
    generatorPublicKey := 22 }

/-- The parent of `headBlock0`. -/
def parentBlock0 : RBlock :=
  { id := 12, timestamp := 80, previousBlock := 13, height := 3,
    generatorPublicKey := 23 }

/-! ## Helper lemmas -/

/-- `writeField` always produces exactly `len` bytes. -/
@[simp]
theorem writeField_length (len : Nat) (bs : List Nat) :
    (writeField len bs).length = len := by
  simp only [writeField, List.length_append, List.length_take, List.length_replicate]
  omega

/-- `leBytes` always produces exactly `width` bytes. -/
@[simp]
theorem leBytes_length (width : Nat) : ∀ n : Nat, (leBytes width n).length = width := by
  induction width with
  | zero => intro n; rfl
  | succ w ih => intro n; simp [leBytes, ih]

/-- The recipient/amount region of the header is 16 bytes in both branches. -/
@[simp]
theorem sendFields_length (t : BTrs) :
    (if t.typeCode = sendTypeCode then
        leBytes 8 t.recipientAddress ++ leBytes 8 t.amount
      else List.replicate 16 0).length = 16 := by
  split <;> simp

/-- A signature slot of the header is 64 bytes whether present or absent. -/
@[simp]
theorem sigField_length (o : Option (List Nat)) :
    (match o with
      | some s => writeField 64 s
      | none => List.replicate 64 0).length = 64 := by
  cases o <;> simp

/-! ## Claim theorems -/

/-- Claim C8: for every non-negative integer slot number `s`,
`getSlotNumber (getSlotTime s) = s` — converting a slot to its epoch time
and back with the 10-second interval is the identity. -/
theorem getSlotNumber_getSlotTime (s : Int) (h : 0 ≤ s) :
    getSlotNumber (getSlotTime s) = s := by
  unfold getSlotNumber getSlotTime slotInterval
  exact Int.mul_fdiv_cancel s (by norm_num)

/-- Witness for C8 at the concrete slot 3. -/
theorem getSlotNumber_getSlotTime_witness :
    (0 : Int) ≤ 3 ∧ getSlotNumber (getSlotTime 3) = 3 :=
  ⟨by norm_num, getSlotNumber_getSlotTime 3 (by norm_num)⟩

/-- Claim C10: `validate` rejects any transaction whose `fee` is `0`
(reporting "Missing fee") or whose `createdAt` is `0` (reporting
"Missing creation time"), because field presence is tested by truthiness;
in particular a transaction created at epoch second 0 can never pass
validation, whatever the per-type service says. -/
theorem validate_zero_fee_or_createdAt (sv : Trs → Response) (t : Trs)
    (h : t.fee = 0 ∨ t.createdAt = 0) :
    (validate sv (some t)).success = false
    ∧ (t.fee = 0 → "Missing fee" ∈ (validate sv (some t)).errors)
    ∧ (t.createdAt = 0 → "Missing creation time" ∈ (validate sv (some t)).errors) := by
  have hmem : ("Missing fee" ∈ (validate sv (some t)).errors ∨
      "Missing creation time" ∈ (validate sv (some t)).errors)
      ∧ (t.fee = 0 → "Missing fee" ∈ (validate sv (some t)).errors)
      ∧ (t.createdAt = 0 → "Missing creation time" ∈ (validate sv (some t)).errors) := by
    simp only [validate, List.mem_append]
    rcases h with h | h <;>
      refine ⟨?_, fun hf => ?_, fun hc => ?_⟩ <;>
      simp_all
  refine ⟨?_, hmem.2.1, hmem.2.2⟩
  rcases hmem.1 with hm | hm <;>
  · simp only [Response.success, List.isEmpty_eq_false_iff_exists_mem]
    exact ⟨_, hm⟩

/-- Witness for C10: a transaction with `createdAt = 0` (and nonzero fee)
is rejected with "Missing creation time". -/
theorem validate_zero_fee_or_createdAt_witness :
    ({ sendZeroAmount with createdAt := 0, amount := 7 } : Trs).createdAt = 0
    ∧ (validate serviceValidateOk
        (some { sendZeroAmount with createdAt := 0, amount := 7 })).success = false
    ∧ "Missing creation time" ∈ (validate serviceValidateOk
        (some { sendZeroAmount with createdAt := 0, amount := 7 })).errors := by
  have h := validate_zero_fee_or_createdAt serviceValidateOk
    { sendZeroAmount with createdAt := 0, amount := 7 } (Or.inr rfl)
  exact ⟨rfl, h.1, h.2.2 rfl⟩

/-- Claim C9, counterexample: a fully populated SEND transaction with
`asset.amount = 0` is rejected, but the error list is exactly
`["Missing amount"]` — it does not contain the "Invalid amount" error the
claim names: `!asset.amount` fires on 0, while the invalid-amount range
check (`< 0`, decimal point, exponent) does not. -/
theorem validate_zero_amount_counterexample :
    (validate serviceValidateOk (some sendZeroAmount)).errors = ["Missing amount"]
    ∧ "Invalid amount" ∉ (validate serviceValidateOk (some sendZeroAmount)).errors := by
  constructor <;> decide

/-- Claim C9 (amended): `validate` of a SEND transaction whose asset amount
equals `0` returns a failure result whose error list contains the
missing-amount error ("Missing amount", from the truthiness presence check);
the transaction is rejected, whatever the per-type service says. -/
theorem validate_zero_amount_rejected (sv : Trs → Response) (t : Trs)
    (hsend : t.typeCode = sendTypeCode) (hzero : t.amount = 0) :
    (validate sv (some t)).success = false
    ∧ "Missing amount" ∈ (validate sv (some t)).errors := by
  have hmem : "Missing amount" ∈ (validate sv (some t)).errors := by
    simp only [validate, List.mem_append]
    simp [hsend, hzero]
  refine ⟨?_, hmem⟩
  simp only [Response.success, List.isEmpty_eq_false_iff_exists_mem]
  exact ⟨_, hmem⟩

/-- Witness for the amended C9 at the concrete transaction `sendZeroAmount`. -/
theorem validate_zero_amount_rejected_witness :
    sendZeroAmount.typeCode = sendTypeCode ∧ sendZeroAmount.amount = 0
    ∧ (validate serviceValidateOk (some sendZeroAmount)).success = false
    ∧ "Missing amount" ∈ (validate serviceValidateOk (some sendZeroAmount)).errors := by
  have h := validate_zero_amount_rejected serviceValidateOk sendZeroAmount rfl rfl
  exact ⟨rfl, rfl, h.1, h.2⟩

/-- Claim C1: at the concrete input `sendOverSpendable` / `stakedSender` the
transaction's `amount + fee` (80) exceeds the spendable balance
`actualBalance - totalStakedAmount` (50), yet `verifyUnconfirmed` accepts it:
`checkBalance` compares against `actualBalance` alone and never subtracts
`totalStakedAmount` (the source's own TODO comments record the omission). -/
theorem verifyUnconfirmed_ignores_staked_amount :
    (verifyUnconfirmed plainVerifyCtx sendOverSpendable stakedSender false).success = true
    ∧ stakedSender.actualBalance - stakedSender.totalStakedAmount
        < sendOverSpendable.amount + sendOverSpendable.fee
    ∧ (checkBalance plainVerifyCtx.genesisBlockId
        (sendOverSpendable.amount + sendOverSpendable.fee)
        sendOverSpendable stakedSender).success = true := by
  refine ⟨?_, by decide, ?_⟩ <;> decide

/-- Claim C5: at the failure of pool transaction "a1" with one later pool
transaction "b2" from the same sender, the loop issues the unconfirmed undo
for "a1" twice (the `forEach` over `slice(i, length)` ignores its argument)
and never as part of that failure for "b2"; "b2" is undone only in its own
later iteration, even though it verifies successfully. -/
theorem checkSenderTransactions_double_undo :
    checkSenderTransactions rejectA1 [] [poolTrs1, poolTrs2] =
      [PoolEvent.undo "a1", PoolEvent.undo "a1",
       PoolEvent.removeFromPool "a1", PoolEvent.pushToQueue "a1",
       PoolEvent.recurseOn 7, PoolEvent.undo "b2"]
    ∧ (checkSenderTransactions rejectA1 [] [poolTrs1, poolTrs2]).count
        (PoolEvent.undo "a1") = 2 := by
  constructor <;> decide

/-- Claim C6, counterexample: when block construction (`block.create`) fails
after the pool was drained, `newGenerateBlock` re-throws without pushing the
drained transactions back and without releasing the pool+queue lock: with
drained `["x"]` and remaining pool `["y"]`, the exception escapes, `"x"` is
not back in the pool, and the lock is still held. -/
theorem newGenerateBlock_create_failure_counterexample :
    newGenerateBlock false true ["x"] ["y"] = ({ pool := ["y"], locked := true }, true)
    ∧ "x" ∉ (newGenerateBlock false true ["x"] ["y"]).1.pool
    ∧ (newGenerateBlock false true ["x"] ["y"]).1.locked = true := by
  refine ⟨rfl, ?_, rfl⟩
  decide

/-- Claim C6 (amended): only a failure during block *processing* restores the
pool and releases the lock — the drained transactions are pushed back and the
lock freed, with no exception escaping; on success the lock is also released.
A failure during block *construction* escapes with the lock held and the
drained transactions lost (see the counterexample). -/
theorem newGenerateBlock_process_failure_restores (drained remainingPool : List String) :
    newGenerateBlock true false drained remainingPool =
      ({ pool := remainingPool ++ drained, locked := false }, false)
    ∧ newGenerateBlock true true drained remainingPool =
      ({ pool := remainingPool, locked := false }, false) :=
  ⟨rfl, rfl⟩

/-- Witness for the amended C6: with drained `["x"]` and remaining pool
`["y"]`, a processing failure restores `"x"` to the pool and frees the lock. -/
theorem newGenerateBlock_process_failure_restores_witness :
    newGenerateBlock true false ["x"] ["y"] =
      ({ pool := ["y", "x"], locked := false }, false) := by
  have h := (newGenerateBlock_process_failure_restores ["x"] ["y"]).1
  simpa using h

/-- Claim C7: `verifySignature` and `verifyBytes` are unimplemented — both
return `undefined` (`none`) for every input, so the Ed25519 sign/verify
round-trip law cannot hold: at a concrete signed transaction the result is
`none`, not a success response. -/
theorem verifySignature_returns_undefined :
    verifySignature sendOverSpendable "pk" "sig" = none
    ∧ verifyBytes [0] "pk" "sig" = none
    ∧ verifySignature sendOverSpendable "pk" "sig" ≠ some { success := true } := by
  exact ⟨rfl, rfl, by decide⟩

/-- Claim C3: on a fork-1 block (consecutive height, different parent) the
resolver keeps the block with the older `createdAt` (on a tie, the
numerically smaller id); if the incoming block wins it normalizes it,
validates its slot, runs `verifyReceipt`, then deletes exactly the last two
blocks; it never processes the incoming block; if the head wins the incoming
block is discarded and the chain is unchanged. -/
theorem receiveForkOne_spec (env : ForkEnv) (chain : List RBlock)
    (block lastBlock : RBlock) (hid : block.id ≠ lastBlock.id) :
    (lastBlockStands block lastBlock = false ↔
      (block.timestamp < lastBlock.timestamp
        ∨ (block.timestamp = lastBlock.timestamp ∧ block.id < lastBlock.id)))
    ∧ (lastBlockStands block lastBlock = true →
        receiveForkOne env chain block lastBlock = ([], chain))
    ∧ (lastBlockStands block lastBlock = false →
        env.normalizeOk block = true → env.validateSlotOk block = true →
        env.verifyReceiptOk block = true →
        receiveForkOne env chain block lastBlock =
          ([ChainAction.normalizeBlock, ChainAction.validateSlot,
            ChainAction.verifyReceipt, ChainAction.deleteLastBlock,
            ChainAction.deleteLastBlock], chain.drop 2))
    ∧ (∀ i, ChainAction.processBlock i ∉ (receiveForkOne env chain block lastBlock).1) := by
  refine ⟨?_, fun hs => ?_, fun hs h1 h2 h3 => ?_, fun i => ?_⟩
  · simp only [lastBlockStands, Bool.or_eq_false_iff, Bool.and_eq_false_iff,
      decide_eq_false_iff_not, not_lt, decide_eq_true_eq]
    omega
  · simp [receiveForkOne, hs]
  · simp [receiveForkOne, hs, h1, h2, h3]
  · unfold receiveForkOne
    split
    · simp
    · split
      · simp
      · split
        · simp
        · split <;> simp

/-- Witness for C3: the older incoming block `forkBlock0` wins against
`headBlock0`, and the resolver deletes the head and its parent, leaving the
grandparent chain. -/
theorem receiveForkOne_spec_witness :
    forkBlock0.id ≠ headBlock0.id
    ∧ lastBlockStands forkBlock0 headBlock0 = false
    ∧ receiveForkOne allOkForkEnv [headBlock0, parentBlock0] forkBlock0 headBlock0 =
        ([ChainAction.normalizeBlock, ChainAction.validateSlot,
          ChainAction.verifyReceipt, ChainAction.deleteLastBlock,
          ChainAction.deleteLastBlock], []) := by
  have h := receiveForkOne_spec allOkForkEnv [headBlock0, parentBlock0]
    forkBlock0 headBlock0 (by decide)
  exact ⟨by decide, by decide, h.2.2.1 (by decide) rfl rfl rfl⟩

/-- Claim C4: on a fork-5 block (same height, same parent, different id) the
resolver applies the same tie-break as fork-1 (the shared `lastBlockStands`
test: older `createdAt` wins, smaller id on a tie); if the incoming block
wins it deletes exactly one block and then processes the incoming block,
which becomes the new head; if the head wins the incoming block is discarded
and the chain is unchanged. -/
theorem receiveForkFive_spec (env : ForkEnv) (chain : List RBlock)
    (block lastBlock : RBlock) (hid : block.id ≠ lastBlock.id) :
    (lastBlockStands block lastBlock = false ↔
      (block.timestamp < lastBlock.timestamp
        ∨ (block.timestamp = lastBlock.timestamp ∧ block.id < lastBlock.id)))
    ∧ (lastBlockStands block lastBlock = true →
        receiveForkFive env chain block lastBlock = ([], chain))
    ∧ (lastBlockStands block lastBlock = false →
        env.normalizeOk block = true → env.validateSlotOk block = true →
        env.verifyReceiptOk block = true → env.processOk block = true →
        receiveForkFive env chain block lastBlock =
          ([ChainAction.normalizeBlock, ChainAction.validateSlot,
            ChainAction.verifyReceipt, ChainAction.deleteLastBlock,
            ChainAction.processBlock block.id], block :: chain.drop 1)
        ∧ (receiveForkFive env chain block lastBlock).2.head? = some block
        ∧ ((receiveForkFive env chain block lastBlock).1.count
            ChainAction.deleteLastBlock) = 1) := by
  refine ⟨?_, fun hs => ?_, fun hs h1 h2 h3 h4 => ?_⟩
  · simp only [lastBlockStands, Bool.or_eq_false_iff, Bool.and_eq_false_iff,
      decide_eq_false_iff_not, not_lt, decide_eq_true_eq]
    omega
  · simp [receiveForkFive, hs]
  · have heq : receiveForkFive env chain block lastBlock =
        ([ChainAction.normalizeBlock, ChainAction.validateSlot,
          ChainAction.verifyReceipt, ChainAction.deleteLastBlock,
          ChainAction.processBlock block.id], block :: chain.drop 1) := by
      simp [receiveForkFive, hs, h1, h2, h3, h4]
    refine ⟨heq, ?_, ?_⟩
    · rw [heq]
      rfl
    · rw [heq]
      rfl

/-- Witness for C4: the older incoming block `forkBlock0` wins against
`headBlock0`, one block is deleted and `forkBlock0` becomes the new head. -/
theorem receiveForkFive_spec_witness :
    forkBlock0.id ≠ headBlock0.id
    ∧ receiveForkFive allOkForkEnv [headBlock0, parentBlock0] forkBlock0 headBlock0 =
        ([ChainAction.normalizeBlock, ChainAction.validateSlot,
          ChainAction.verifyReceipt, ChainAction.deleteLastBlock,
          ChainAction.processBlock forkBlock0.id], [forkBlock0, parentBlock0])
    ∧ (receiveForkFive allOkForkEnv [headBlock0, parentBlock0]
        forkBlock0 headBlock0).2.head? = some forkBlock0 := by
  have h := receiveForkFive_spec allOkForkEnv [headBlock0, parentBlock0]
    forkBlock0 headBlock0 (by decide)
  have h3 := h.2.2 (by decide) rfl rfl rfl rfl
  exact ⟨by decide, h3.1, h3.2.1⟩

/-- Claim C2, counterexample: the fixed header is not 117 bytes — at the
concrete transaction `bTrs0` with an empty asset tail, `getBytes` returns
197 bytes (the sum 16+1+4+32+8+8+64+64 of the claimed field widths), so a
header that places a 64-byte `secondSignature` at offset 133 cannot be 117
bytes long. -/
theorem getBytes_header_length_counterexample :
    (getBytes [] bTrs0).length = 197 ∧ (getBytes [] bTrs0).length ≠ 117 := by
  have h : (getBytes [] bTrs0).length = 197 := by
    simp [getBytes, bTrs0]
  exact ⟨h, by rw [h]; norm_num⟩

/-- Claim C2 (amended): `getBytes` returns a fixed-size header of exactly
197 bytes followed by the variable asset tail, with little-endian fields at
the claimed offsets: salt at 0 (16 bytes), type at 16, createdAt (u32) at 17,
senderPublicKey at 21, recipientAddress (u64, zero if not a transfer) at 53,
amount (u64, zero if not a transfer) at 61, signature (64 bytes, zero if
unsigned) at 69, and secondSignature (64 bytes, zero if absent) at 133. -/
theorem getBytes_layout (assetBytes : List Nat) (t : BTrs) :
    (getBytes assetBytes t).length = 197 + assetBytes.length
    ∧ (getBytes assetBytes t).take 16 = writeField 16 t.salt
    ∧ ((getBytes assetBytes t).drop 16).take 1 = [t.typeCode % 256]
    ∧ ((getBytes assetBytes t).drop 17).take 4 = leBytes 4 t.createdAt
    ∧ ((getBytes assetBytes t).drop 21).take 32 = writeField 32 t.senderPublicKey
    ∧ (t.typeCode = sendTypeCode →
        ((getBytes assetBytes t).drop 53).take 8 = leBytes 8 t.recipientAddress
        ∧ ((getBytes assetBytes t).drop 61).take 8 = leBytes 8 t.amount)
    ∧ (t.typeCode ≠ sendTypeCode →
        ((getBytes assetBytes t).drop 53).take 16 = List.replicate 16 0)
    ∧ ((getBytes assetBytes t).drop 69).take 64 =
        (match t.signature with
          | some s => writeField 64 s
          | none => List.replicate 64 0)
    ∧ ((getBytes assetBytes t).drop 133).take 64 =
        (match t.secondSignature with
          | some s => writeField 64 s
          | none => List.replicate 64 0)
    ∧ (getBytes assetBytes t).drop 197 = assetBytes := by
  have ebytes : getBytes assetBytes t =
      writeField 16 t.salt
      ++ ([t.typeCode % 256]
      ++ (leBytes 4 t.createdAt
      ++ (writeField 32 t.senderPublicKey
      ++ ((if t.typeCode = sendTypeCode then
            leBytes 8 t.recipientAddress ++ leBytes 8 t.amount
          else List.replicate 16 0)
      ++ ((match t.signature with
            | some s => writeField 64 s
            | none => List.replicate 64 0)
      ++ ((match t.secondSignature with
            | some s => writeField 64 s
            | none => List.replicate 64 0)
      ++ assetBytes)))))) := by
    rw [getBytes]
    simp only [List.append_assoc]
  have e16 : (getBytes assetBytes t).drop 16 =
      [t.typeCode % 256]
      ++ (leBytes 4 t.createdAt
      ++ (writeField 32 t.senderPublicKey
      ++ ((if t.typeCode = sendTypeCode then
            leBytes 8 t.recipientAddress ++ leBytes 8 t.amount
          else List.replicate 16 0)
      ++ ((match t.signature with
            | some s => writeField 64 s
            | none => List.replicate 64 0)
      ++ ((match t.secondSignature with
            | some s => writeField 64 s
            | none => List.replicate 64 0)
      ++ assetBytes))))) := by
    rw [ebytes]
    exact List.drop_left' (writeField_length _ _)
  have h17 : (getBytes assetBytes t).drop 17 =
      ((getBytes assetBytes t).drop 16).drop 1 := by
    simp [List.drop_drop]
  have e17 : (getBytes assetBytes t).drop 17 =
      leBytes 4 t.createdAt
      ++ (writeField 32 t.senderPublicKey
      ++ ((if t.typeCode = sendTypeCode then
            leBytes 8 t.recipientAddress ++ leBytes 8 t.amount
          else List.replicate 16 0)
      ++ ((match t.signature with
            | some s => writeField 64 s
            | none => List.replicate 64 0)
      ++ ((match t.secondSignature with
            | some s => writeField 64 s
            | none => List.replicate 64 0)
      ++ assetBytes)))) := by
    rw [h17, e16]
    exact List.drop_left' rfl
  have h21 : (getBytes assetBytes t).drop 21 =
      ((getBytes assetBytes t).drop 17).drop 4 := by
    simp [List.drop_drop]
  have e21 : (getBytes assetBytes t).drop 21 =
      writeField 32 t.senderPublicKey
      ++ ((if t.typeCode = sendTypeCode then
            leBytes 8 t.recipientAddress ++ leBytes 8 t.amount
          else List.replicate 16 0)
      ++ ((match t.signature with
            | some s => writeField 64 s
            | none => List.replicate 64 0)
      ++ ((match t.secondSignature with
            | some s => writeField 64 s
            | none => List.replicate 64 0)
      ++ assetBytes))) := by
    rw [h21, e17]
    exact List.drop_left' (leBytes_length _ _)
  have h53 : (getBytes assetBytes t).drop 53 =
      ((getBytes assetBytes t).drop 21).drop 32 := by
    simp [List.drop_drop]
  have e53 : (getBytes assetBytes t).drop 53 =
      (if t.typeCode = sendTypeCode then
          leBytes 8 t.recipientAddress ++ leBytes 8 t.amount
        else List.replicate 16 0)
      ++ ((match t.signature with
            | some s => writeField 64 s
            | none => List.replicate 64 0)
      ++ ((match t.secondSignature with
            | some s => writeField 64 s
            | none => List.replicate 64 0)
      ++ assetBytes)) := by
    rw [h53, e21]
    exact List.drop_left' (writeField_length _ _)
  have h69 : (getBytes assetBytes t).drop 69 =
      ((getBytes assetBytes t).drop 53).drop 16 := by
    simp [List.drop_drop]
  have e69 : (getBytes assetBytes t).drop 69 =
      (match t.signature with
        | some s => writeField 64 s
        | none => List.replicate 64 0)
      ++ ((match t.secondSignature with
            | some s => writeField 64 s
            | none => List.replicate 64 0)
      ++ assetBytes) := by
    rw [h69, e53]
    exact List.drop_left' (sendFields_length t)
  have h133 : (getBytes assetBytes t).drop 133 =
      ((getBytes assetBytes t).drop 69).drop 64 := by
    simp [List.drop_drop]
  have e133 : (getBytes assetBytes t).drop 133 =
      (match t.secondSignature with
        | some s => writeField 64 s
        | none => List.replicate 64 0)
      ++ assetBytes := by
    rw [h133, e69]
    exact List.drop_left' (sigField_length _)
  have e197 : (getBytes assetBytes t).drop 197 = assetBytes := by
    have h197 : (getBytes assetBytes t).drop 197 =
        ((getBytes assetBytes t).drop 133).drop 64 := by
      simp [List.drop_drop]
    rw [h197, e133]
    exact List.drop_left' (sigField_length _)
  refine ⟨?_, ?_, ?_, ?_, ?_, ?_, ?_, ?_, ?_, e197⟩
  · simp only [getBytes, List.length_append, writeField_length, leBytes_length,
      sendFields_length, sigField_length, List.length_cons, List.length_nil]
  · rw [ebytes]
    exact List.take_left' (writeField_length _ _)
  · rw [e16]
    exact List.take_left' rfl
  · rw [e17]
    exact List.take_left' (leBytes_length _ _)
  · rw [e21]
    exact List.take_left' (writeField_length _ _)
  · intro hsend
    rw [if_pos hsend] at e53
    rw [List.append_assoc] at e53
    constructor
    · rw [e53]
      exact List.take_left' (leBytes_length _ _)
    · have h61 : (getBytes assetBytes t).drop 61 =
          ((getBytes assetBytes t).drop 53).drop 8 := by
        simp [List.drop_drop]
      rw [h61, e53, List.drop_left' (leBytes_length _ _)]
      exact List.take_left' (leBytes_length _ _)
  · intro hsend
    rw [if_neg hsend] at e53
    rw [e53]
    exact List.take_left' (List.length_replicate _ _)
  · rw [e69]
    exact List.take_left' (sigField_length _)
  · rw [e133]
    exact List.take_left' (sigField_length _)

/-- Witness for the amended C2 at the concrete SEND transaction `bTrs0` with
a one-byte asset tail. -/
theorem getBytes_layout_witness :
    bTrs0.typeCode = sendTypeCode
    ∧ (getBytes [9] bTrs0).length = 198
    ∧ ((getBytes [9] bTrs0).drop 53).take 8 = leBytes 8 bTrs0.recipientAddress
    ∧ ((getBytes [9] bTrs0).drop 61).take 8 = leBytes 8 bTrs0.amount
    ∧ (getBytes [9] bTrs0).drop 197 = [9] := by
  have h := getBytes_layout [9] bTrs0
  have hs := h.2.2.2.2.2.1 rfl
  exact ⟨rfl, by rw [h.1]; simp, hs.1, hs.2, h.2.2.2.2.2.2.2.2.2⟩

end DDK
